import Mathlib

/-!
Verification of the dump engine in dumper/mysql.go (skpr/mysqlsuperdump).

The database connection is modelled as a structure of oracles: each kind of
query the engine issues is a field mapping the query (or table name) to the
result the driver would deliver, with Except capturing query or scan
failures.  Row cursors are lists whose elements are per-row scan results.
Writer output is modelled as the String of bytes written; functions that
write and may fail return the written bytes paired with an Option error.
-/

namespace MySQLDump

abbrev Err := String

/-- A single quote character, kept as a named constant. -/
def squote : String := String.mk [Char.ofNat 39]

/-- Lower-casing of a string (strings.ToLower at the call sites of the
source), modelled character-wise so that it evaluates in the kernel. -/
def strToLower (s : String) : String := String.mk (s.data.map Char.toLower)

/-- Database oracle: what the injected connection answers to each statement
shape the engine issues.  A cursor is the list of per-row scan outcomes. -/
structure DB where
  /-- Result of `SHOW FULL TABLES`: query failure, or the cursor of
  (name, type) scan outcomes. -/
  tablesCursor : Except Err (List (Except Err (String × String)))
  /-- Result of scanning the row of `SHOW CREATE TABLE` for a table:
  the (name, ddl) pair. -/
  createTable : String → Except Err (String × String)
  /-- Result of `SELECT * FROM t LIMIT 1` followed by Columns(): the
  native column list of the table. -/
  probeColumns : String → Except Err (List String)
  /-- Result of scanning the row of a COUNT query, keyed by the full
  query text. -/
  countScan : String → Except Err Nat
  /-- Result of running a data SELECT, keyed by the full query text:
  query failure, or the cursor of per-row scan outcomes, each row being
  the cell buffers (none models a SQL NULL cell). -/
  dataRows : String → Except Err (List (Except Err (List (Option String))))

/-- The Client configuration from mysql.go: the maps are modelled as
lookup functions (a Go map read returns ok=false on a missing key). -/
structure Client where
  selectMap : String → String → Option String
  whereMap : String → Option String
  filterMap : String → Option String
  useTableLock : Bool
  extendedInsertRows : Nat

/-- Loop body of GetTables: fold the cursor, keeping names of BASE TABLE
rows; a scan failure returns the names accumulated so far with the error. -/
def getTablesLoop : List (Except Err (String × String)) → List String →
    List String × Option Err
  | [], acc => (acc, none)
  | Except.error e :: _, acc => (acc, some e)
  | Except.ok (name, ttype) :: rest, acc =>
    getTablesLoop rest (if ttype = "BASE TABLE" then acc ++ [name] else acc)

/-- GetTables from mysql.go lines 55-79. -/
def GetTables (db : DB) : List String × Option Err :=
  match db.tablesCursor with
  | Except.error e => ([], some e)
  | Except.ok rows => getTablesLoop rows []

/-- WriteCreateTable from mysql.go lines 82-97: header comment and DROP
statement are written before the DDL query is scanned. -/
def WriteCreateTable (db : DB) (table : String) : String × Option Err :=
  let header := "\n--\n-- Structure for table `" ++ table ++ "`\n--\n\n"
  let drop := "DROP TABLE IF EXISTS `" ++ table ++ "`;\n"
  match db.createTable table with
  | Except.error e => (header ++ drop, some e)
  | Except.ok (_, ddl) => (header ++ drop ++ ddl ++ ";\n", none)

/-- The per-column rewrite of GetColumnsForSelect (mysql.go lines 115-122):
a SelectMap hit (looked up with lower-cased table and column names) becomes
an aliased expression, otherwise the column name is backtick-quoted. -/
def applySelectMap (c : Client) (table : String) (columns : List String) :
    List String :=
  columns.map fun column =>
    match c.selectMap (strToLower table) (strToLower column) with
    | some replacement => replacement ++ " AS `" ++ column ++ "`"
    | none => "`" ++ column ++ "`"

/-- GetColumnsForSelect from mysql.go lines 100-125. -/
def GetColumnsForSelect (c : Client) (db : DB) (table : String) :
    Except Err (List String) :=
  (db.probeColumns table).map (applySelectMap c table)

/-- GetSelectQueryForTable from mysql.go lines 128-141. -/
def GetSelectQueryForTable (c : Client) (db : DB) (table : String) :
    Except Err String :=
  (GetColumnsForSelect c db table).map fun cols =>
    let query := "SELECT " ++ String.intercalate ", " cols ++ " FROM `" ++
      table ++ "`"
    match c.whereMap (strToLower table) with
    | some w => query ++ " WHERE " ++ w
    | none => query

/-- The COUNT query text built by GetRowCountForTable (mysql.go 145-148). -/
def countQueryForTable (c : Client) (table : String) : String :=
  let query := "SELECT COUNT(*) FROM `" ++ table ++ "`"
  match c.whereMap (strToLower table) with
  | some w => query ++ " WHERE " ++ w
  | none => query

/-- GetRowCountForTable from mysql.go lines 144-154. -/
def GetRowCountForTable (c : Client) (db : DB) (table : String) :
    Except Err Nat :=
  db.countScan (countQueryForTable c table)

/-- WriteTableLockWrite from mysql.go lines 157-159. -/
def WriteTableLockWrite (table : String) : String :=
  "LOCK TABLES `" ++ table ++ "` WRITE;\n"

/-- WriteUnlockTables from mysql.go lines 162-164. -/
def WriteUnlockTables : String := "UNLOCK TABLES;\n"

/-- selectAllDataFor from mysql.go lines 167-184: build the SELECT query and
run it, yielding the row cursor.  The Columns() call of the source is only
used there to size the scan buffers, which the cursor rows already model. -/
def selectAllDataFor (c : Client) (db : DB) (table : String) :
    Except Err (List (Except Err (List (Option String)))) :=
  match GetSelectQueryForTable c db table with
  | Except.error e => Except.error e
  | Except.ok query => db.dataRows query

/-- WriteTableHeader from mysql.go lines 187-198: the first fragment is
written before the count query; on failure only that fragment was written. -/
def WriteTableHeader (c : Client) (db : DB) (table : String) :
    String × Except Err Nat :=
  let header := "\n--\n-- Data for table `" ++ table ++ "`"
  match GetRowCountForTable c db table with
  | Except.error e => (header, Except.error e)
  | Except.ok count =>
    (header ++ " -- " ++ toString count ++ " rows\n--\n\n", Except.ok count)

/-- Escape of a cell value.  Modelled from the spec: the function escape is
not among the provided sources (only its call site in WriteTableData is);
the spec requires every single-quote, backslash, NUL byte, newline,
carriage return and Ctrl-Z (0x1A) to be replaced by its backslash-escaped
form.  Character codes: 39 quote, 92 backslash, 48 the digit 0, 110 n,
114 r, 90 Z. -/
def escapeChar (c : Char) : List Char :=
  if c.toNat = 39 then [Char.ofNat 92, Char.ofNat 39]
  else if c.toNat = 92 then [Char.ofNat 92, Char.ofNat 92]
  else if c.toNat = 0 then [Char.ofNat 92, Char.ofNat 48]
  else if c.toNat = 10 then [Char.ofNat 92, Char.ofNat 110]
  else if c.toNat = 13 then [Char.ofNat 92, Char.ofNat 114]
  else if c.toNat = 26 then [Char.ofNat 92, Char.ofNat 90]
  else [c]

/-- Modelled from the spec: escape applies the per-character replacement to
every character of the byte string. -/
def escape (s : String) : String := String.mk (s.data.flatMap escapeChar)

/-- Rendering of one scanned cell (mysql.go lines 228-234): NULL for a nil
buffer, otherwise the escaped bytes wrapped in single quotes. -/
def renderCell : Option String → String
  | none => "NULL"
  | some s => squote ++ escape s ++ squote

/-- Rendering of one row tuple (mysql.go line 237). -/
def renderRow (cells : List (Option String)) : String :=
  "( " ++ String.intercalate ", " (cells.map renderCell) ++ " )"

/-- One flushed INSERT statement (mysql.go lines 244 and 250): the INSERT
prefix, a newline, the tuples joined by comma-newline, then a semicolon and
newline. -/
def insertStmt (query : String) (data : List String) : String :=
  query ++ "\n" ++ String.intercalate ",\n" data ++ ";\n"

/-- The row loop of WriteTableData (mysql.go lines 220-251), returning the
list of flushed tuple batches and the error of a failed row scan.  Each ok
row is rendered and appended to the accumulator; with a nonzero batch size
the accumulator is flushed once it reaches that size; after the loop a
non-empty accumulator is flushed.  A scan error aborts the loop: batches
already flushed stay written, the accumulator is discarded. -/
def dumpBatches (n : Nat) : List (Except Err (List (Option String))) →
    List String → List (List String) × Option Err
  | [], data => (if 0 < data.length then [data] else [], none)
  | Except.error e :: _, _ => ([], some e)
  | Except.ok cells :: rest, data =>
    let data2 := data ++ [renderRow cells]
    if n = 0 then dumpBatches n rest data2
    else if n ≤ data2.length then
      let r := dumpBatches n rest []
      (data2 :: r.1, r.2)
    else dumpBatches n rest data2

/-- WriteTableData from mysql.go lines 201-254. -/
def WriteTableData (c : Client) (db : DB) (table : String) :
    String × Option Err :=
  match selectAllDataFor c db table with
  | Except.error e => ("", some e)
  | Except.ok cursor =>
    let query := "INSERT INTO `" ++ table ++ "` VALUES"
    let r := dumpBatches c.extendedInsertRows cursor []
    (String.join (r.1.map (insertStmt query)), r.2)

/-- WriteTable from mysql.go lines 273-306.  Besides the written bytes and
the returned error it records the administrative statements executed
against the database (LOCK TABLES READ, FLUSH TABLES, UNLOCK TABLES).  The
source discards the error results of WriteCreateTable (line 284) and
WriteTableData (line 294); only the WriteTableHeader error is returned. -/
def WriteTable (c : Client) (db : DB) (table : String) :
    String × List String × Option Err :=
  if (c.filterMap (strToLower table)).getD "" == "ignore" then ("", [], none)
  else
    let skipData := (c.filterMap (strToLower table)).getD "" == "nodata"
    let execs1 := if !skipData && c.useTableLock then
        ["LOCK TABLES `" ++ table ++ "` READ", "FLUSH TABLES `" ++ table ++ "`"]
      else []
    let out1 := (WriteCreateTable db table).1
    if skipData then (out1, execs1, none)
    else
      match WriteTableHeader c db table with
      | (out2, Except.error e) => (out1 ++ out2, execs1, some e)
      | (out2, Except.ok cnt) =>
        if 0 < cnt then
          let out3 := (WriteTableData c db table).1
          let execs2 := if c.useTableLock then ["UNLOCK TABLES"] else []
          (out1 ++ out2 ++ WriteTableLockWrite table ++ out3 ++ "\n" ++
            WriteUnlockTables, execs1 ++ execs2, none)
        else (out1 ++ out2, execs1, none)

/-- Names of BASE TABLE rows, in cursor order. -/
def baseTableNames (rows : List (String × String)) : List String :=
  (rows.filter fun r => r.2 = "BASE TABLE").map fun r => r.1

/-- A client with batch size 2 and no configuration maps, for witnesses. -/
def exClient : Client :=
  { selectMap := fun _ _ => none
    whereMap := fun _ => none
    filterMap := fun _ => none
    useTableLock := false
    extendedInsertRows := 2 }

/-- A database with one column `a` and three all-NULL rows, for witnesses. -/
def exDbData : DB :=
  { tablesCursor := Except.ok []
    createTable := fun _ => Except.error "no ddl"
    probeColumns := fun _ => Except.ok ["a"]
    countScan := fun _ => Except.ok 0
    dataRows := fun _ =>
      Except.ok [Except.ok [none], Except.ok [none], Except.ok [none]] }

/-- A client whose filter map marks the table secrets as ignored. -/
def exClientIgnore : Client :=
  { selectMap := fun _ _ => none
    whereMap := fun _ => none
    filterMap := fun s => if s = "secrets" then some "ignore" else none
    useTableLock := true
    extendedInsertRows := 100 }

/-- A database whose data query fails after a successful row count. -/
def exDbDataFail : DB :=
  { tablesCursor := Except.ok []
    createTable := fun _ => Except.ok ("t", "CREATE TABLE `t` (x int)")
    probeColumns := fun _ => Except.ok ["a"]
    countScan := fun _ => Except.ok 1
    dataRows := fun _ => Except.error "boom" }

/-- A database with a valid DDL and zero matching rows. -/
def exDbZero : DB :=
  { tablesCursor := Except.ok []
    createTable := fun _ => Except.ok ("t", "CREATE TABLE `t` (x int)")
    probeColumns := fun _ => Except.ok ["a"]
    countScan := fun _ => Except.ok 0
    dataRows := fun _ => Except.ok [] }

/-- A table cursor that decodes one BASE TABLE row and then fails. -/
def exDbTablesPartial : DB :=
  { tablesCursor := Except.ok [Except.ok ("t1", "BASE TABLE"), Except.error "boom"]
    createTable := fun _ => Except.error "unused"
    probeColumns := fun _ => Except.error "unused"
    countScan := fun _ => Except.error "unused"
    dataRows := fun _ => Except.error "unused" }

/-- The code points the spec requires to be escaped: single-quote,
backslash, NUL, newline, carriage return, Ctrl-Z. -/
def specialCodes : List Nat := [39, 92, 0, 10, 13, 26]

/-- The marker character written after the backslash in the escaped form
of a special character: 0, n, r, Z for the control characters, the
character itself for quote and backslash. -/
def escapedMarker (c : Char) : Char :=
  if c.toNat = 0 then Char.ofNat 48
  else if c.toNat = 10 then Char.ofNat 110
  else if c.toNat = 13 then Char.ofNat 114
  else if c.toNat = 26 then Char.ofNat 90
  else c

/-- Decoder for the escaped form under the SQL string-literal rules: a
backslash followed by a marker decodes back to the original character.
Used to show the modelled escaping loses no information. -/
def unescapeChars : List Char → List Char
  | [] => []
  | [c] => [c]
  | c :: d :: rest =>
    if c.toNat = 92 then
      (if d.toNat = 48 then Char.ofNat 0
       else if d.toNat = 110 then Char.ofNat 10
       else if d.toNat = 114 then Char.ofNat 13
       else if d.toNat = 90 then Char.ofNat 26
       else d) :: unescapeChars rest
    else c :: unescapeChars (d :: rest)

/-- A client with a column substitution for table.col2 and a WHERE entry
for table, mirroring the repository tests. -/
def exClientSelect : Client :=
  { selectMap := fun t c => if t = "table" ∧ c = "col2" then some "NOW()" else none
    whereMap := fun t => if t = "table" then some "c1 > 0" else none
    filterMap := fun _ => none
    useTableLock := false
    extendedInsertRows := 100 }

/-- A database exposing three columns, for the query-building witnesses. -/
def exDbColumns : DB :=
  { tablesCursor := Except.ok []
    createTable := fun _ => Except.error "unused"
    probeColumns := fun _ => Except.ok ["col1", "col2", "col3"]
    countScan := fun _ => Except.ok 0
    dataRows := fun _ => Except.ok [] }

end MySQLDump

namespace MySQLDump

theorem dumpBatches_ok_snd (n : Nat) (rows : List (List (Option String))) :
    ∀ acc : List String, (dumpBatches n (rows.map Except.ok) acc).2 = none := by
  induction rows with
  | nil => intro acc; simp [dumpBatches]
  | cons r rest ih =>
    intro acc
    simp only [List.map_cons, dumpBatches]
    split
    · exact ih _
    · split
      · simp [ih]
      · exact ih _

theorem dumpBatches_zero (rows : List (List (Option String))) :
    ∀ acc : List String,
      dumpBatches 0 (rows.map Except.ok) acc =
        (if 0 < (acc ++ rows.map renderRow).length then [acc ++ rows.map renderRow]
          else [], none) := by
  induction rows with
  | nil => intro acc; simp [dumpBatches]
  | cons r rest ih =>
    intro acc
    simp only [List.map_cons, dumpBatches, if_pos]
    rw [ih (acc ++ [renderRow r])]
    simp [List.append_assoc]

theorem dumpBatches_pos (n : Nat) (hn : 0 < n) (rows : List (List (Option String))) :
    ∀ acc : List String, acc.length < n →
      ((dumpBatches n (rows.map Except.ok) acc).1.length
          = (acc.length + rows.length + n - 1) / n)
      ∧ (∀ b ∈ (dumpBatches n (rows.map Except.ok) acc).1.dropLast, b.length = n)
      ∧ ((dumpBatches n (rows.map Except.ok) acc).1.flatten
          = acc ++ rows.map renderRow) := by
  induction rows with
  | nil =>
    intro acc hacc
    simp only [List.map_nil, dumpBatches, List.length_nil, List.map_nil, List.append_nil]
    by_cases h : 0 < acc.length
    · rw [if_pos h]
      refine ⟨?_, by simp, by simp⟩
      have h1 : acc.length + 0 + n - 1 = (acc.length - 1) + n := by omega
      rw [h1, Nat.add_div_right _ hn, Nat.div_eq_of_lt (by omega)]
      simp
    · rw [if_neg h]
      have hz : acc = [] := List.length_eq_zero.mp (by omega)
      subst hz
      refine ⟨?_, by simp, by simp⟩
      rw [Nat.div_eq_of_lt (by omega)]
      simp
  | cons r rest ih =>
    intro acc hacc
    simp only [List.map_cons, dumpBatches]
    have hne : ¬ (n = 0) := by omega
    rw [if_neg hne]
    by_cases hfl : n ≤ (acc ++ [renderRow r]).length
    · rw [if_pos hfl]
      have hlen : acc.length + 1 = n := by
        simp only [List.length_append, List.length_singleton] at hfl
        omega
      obtain ⟨ih1, ih2, ih3⟩ := ih [] (by simpa using hn)
      refine ⟨?_, ?_, ?_⟩
      · simp only [List.length_cons, ih1, List.length_cons]
        have e1 : acc.length + (rest.length + 1) + n - 1 = (0 + rest.length + n - 1) + n := by
          omega
        rw [e1, Nat.add_div_right _ hn]
        simp
      · cases hbs : (dumpBatches n (rest.map Except.ok) []).1 with
        | nil => simp
        | cons b bs2 =>
          rw [List.dropLast_cons₂]
          intro x hx
          rcases List.mem_cons.mp hx with hx1 | hx2
          · subst hx1
            simp only [List.length_append, List.length_singleton]
            omega
          · exact ih2 x (by rw [hbs]; exact hx2)
      · simp only [List.flatten_cons, ih3, List.map_cons]
        simp [List.append_assoc]
    · rw [if_neg hfl]
      have hlt : (acc ++ [renderRow r]).length < n := by omega
      obtain ⟨ih1, ih2, ih3⟩ := ih (acc ++ [renderRow r]) hlt
      refine ⟨?_, ih2, ?_⟩
      · rw [ih1]
        congr 1
        simp only [List.length_append, List.length_cons, List.length_nil]
        omega
      · rw [ih3]
        simp [List.append_assoc]

/-- Claim C1: for a table dump via WriteTableData reading R rows from the
cursor with batch size N = extendedInsertRows: the written output is the
concatenation of one INSERT statement per flushed batch, each statement
being INSERT INTO backtick-table VALUES followed by the comma-separated
parenthesized tuples and terminated with a semicolon and newline, and no
error is returned; if R = 0 there is no batch, hence no INSERT statement;
if N = 0 and R is positive there is exactly one batch holding all R tuples;
if N is positive there are ceil(R / N) batches, every batch except possibly
the last holding exactly N tuples, and the batches together list the R
rendered tuples in cursor order. -/
theorem writeTableData_batching (c : Client) (db : DB) (t q : String)
    (rows : List (List (Option String)))
    (hq : GetSelectQueryForTable c db t = Except.ok q)
    (hrows : db.dataRows q = Except.ok (rows.map Except.ok)) :
    WriteTableData c db t =
      (String.join (((dumpBatches c.extendedInsertRows (rows.map Except.ok) []).1).map
        (insertStmt ("INSERT INTO `" ++ t ++ "` VALUES"))), none)
    ∧ (rows.length = 0 →
        (dumpBatches c.extendedInsertRows (rows.map Except.ok) []).1 = [])
    ∧ (c.extendedInsertRows = 0 → 0 < rows.length →
        (dumpBatches c.extendedInsertRows (rows.map Except.ok) []).1
          = [rows.map renderRow])
    ∧ (0 < c.extendedInsertRows →
        ((dumpBatches c.extendedInsertRows (rows.map Except.ok) []).1.length
            = (rows.length + c.extendedInsertRows - 1) / c.extendedInsertRows)
        ∧ (∀ b ∈ (dumpBatches c.extendedInsertRows (rows.map Except.ok) []).1.dropLast,
            b.length = c.extendedInsertRows)
        ∧ ((dumpBatches c.extendedInsertRows (rows.map Except.ok) []).1.flatten
            = rows.map renderRow)) := by
  refine ⟨?_, ?_, ?_, ?_⟩
  · unfold WriteTableData selectAllDataFor
    rw [hq]
    dsimp only
    rw [hrows]
    simp [dumpBatches_ok_snd]
  · intro hR
    have hr : rows = [] := List.length_eq_zero.mp hR
    subst hr
    simp [dumpBatches]
  · intro hN hR
    rw [hN, dumpBatches_zero rows []]
    cases rows with
    | nil => simp at hR
    | cons r rest => simp
  · intro hN
    have h := dumpBatches_pos c.extendedInsertRows hN rows [] (by simpa using hN)
    simpa using h

/-- Witness for C1: batch size 2 and three rows read give two INSERT
statements, the first with two tuples, the second with one. -/
theorem writeTableData_batching_witness :
    WriteTableData exClient exDbData "t" =
      ("INSERT INTO `t` VALUES\n( NULL ),\n( NULL );\nINSERT INTO `t` VALUES\n( NULL );\n",
        none) := by
  have h := (writeTableData_batching exClient exDbData "t" "SELECT `a` FROM `t`"
      [[none], [none], [none]] rfl rfl).1
  rw [h]
  rfl

/-- The error and executed-statement components of a WriteTable result,
characterized: they depend only on the filter policy, the lock flag and the
row-count scan, never on the DDL fetch or the data query. -/
theorem writeTable_snd_eq (c : Client) (db : DB) (t : String) :
    (WriteTable c db t).2 =
      (if (c.filterMap (strToLower t)).getD "" == "ignore" then ([], none)
      else if (c.filterMap (strToLower t)).getD "" == "nodata" then ([], none)
      else
        match db.countScan (countQueryForTable c t) with
        | Except.error e =>
          ((if c.useTableLock then
              ["LOCK TABLES `" ++ t ++ "` READ", "FLUSH TABLES `" ++ t ++ "`"]
            else []), some e)
        | Except.ok cnt =>
          if 0 < cnt then
            ((if c.useTableLock then
                ["LOCK TABLES `" ++ t ++ "` READ", "FLUSH TABLES `" ++ t ++ "`"]
              else []) ++ (if c.useTableLock then ["UNLOCK TABLES"] else []), none)
          else
            ((if c.useTableLock then
                ["LOCK TABLES `" ++ t ++ "` READ", "FLUSH TABLES `" ++ t ++ "`"]
              else []), none) : List String × Option Err) := by
  unfold WriteTable WriteTableHeader GetRowCountForTable
  cases hig : (c.filterMap (strToLower t)).getD "" == "ignore" with
  | true => simp
  | false =>
    simp only [Bool.false_eq_true, if_false, if_neg]
    cases hsd : (c.filterMap (strToLower t)).getD "" == "nodata" with
    | true => simp [hsd]
    | false =>
      simp only [hsd, Bool.not_false, Bool.true_and, Bool.false_eq_true, if_false]
      cases hcs : db.countScan (countQueryForTable c t) with
      | error e => simp [hcs]
      | ok cnt =>
        by_cases hc : 0 < cnt
        · simp [hcs, hc]
        · simp [hcs, hc]

/-- Claim C3 (amended): a failure fetching or decoding the creation DDL is
returned by WriteCreateTable but discarded by WriteTable (mysql.go line
284): the per-table dump is not terminated at the structure step, and the
error and executed-statement components of the WriteTable result are
independent of the DDL fetch outcome, so the DDL error is never returned
to the caller. -/
theorem writeTable_createTable_indep (c : Client) (db : DB) (t : String)
    (f : String → Except Err (String × String)) :
    (WriteTable c { db with createTable := f } t).2 = (WriteTable c db t).2 := by
  rw [writeTable_snd_eq, writeTable_snd_eq]

/-- Counterexample to claim C3 as stated: the DDL fetch for table t fails,
yet WriteTable reports success instead of returning that error. -/
theorem writeTable_createTable_counterexample :
    exDbData.createTable "t" = Except.error "no ddl"
    ∧ (WriteTable exClient exDbData "t").2.2 = none := ⟨rfl, rfl⟩

/-- Claim C4 (amended): a failure of the data streaming step is returned by
WriteTableData but discarded by WriteTable (mysql.go line 294): the error
and executed-statement components of the WriteTable result are independent
of the data query outcome, so WriteTable reports success to its caller even
when the data write failed. -/
theorem writeTable_dataRows_indep (c : Client) (db : DB) (t : String)
    (f : String → Except Err (List (Except Err (List (Option String))))) :
    (WriteTable c { db with dataRows := f } t).2 = (WriteTable c db t).2 := by
  rw [writeTable_snd_eq, writeTable_snd_eq]

/-- Counterexample to claim C4 as stated: the data query for a table with
one row fails and WriteTableData returns the error, yet WriteTable reports
success instead of returning it. -/
theorem writeTable_dataRows_counterexample :
    (WriteTableData exClient exDbDataFail "t").2 = some "boom"
    ∧ (WriteTable exClient exDbDataFail "t").2.2 = none := ⟨rfl, rfl⟩

/-- Claim C7: for a table whose filter policy (looked up with the
lower-cased name) is ignore, WriteTable writes nothing, executes no
database statement, and succeeds, whatever the database answers. -/
theorem writeTable_ignore (c : Client) (db : DB) (t : String)
    (h : (c.filterMap (strToLower t)).getD "" = "ignore") :
    WriteTable c db t = ("", [], none) := by
  unfold WriteTable
  simp [h]

/-- Witness for C7: the table Secrets, filtered as ignore under its
lower-cased name, dumps to nothing and succeeds. -/
theorem writeTable_ignore_witness :
    WriteTable exClientIgnore exDbData "Secrets" = ("", [], none) :=
  writeTable_ignore exClientIgnore exDbData "Secrets" (by decide)

/-- Claim C8: for an unfiltered table whose effective row count is zero,
WriteTable emits exactly the structure section (header comment, DROP TABLE
IF EXISTS, the DDL terminated with a semicolon) followed by the data header
comment, and nothing else: the output ends there, so no LOCK TABLES WRITE
marker, no INSERT statement and no UNLOCK TABLES marker is emitted. -/
theorem writeTable_zero_rows (c : Client) (db : DB) (t nm ddl : String)
    (hf : c.filterMap (strToLower t) = none)
    (hddl : db.createTable t = Except.ok (nm, ddl))
    (hcnt : db.countScan (countQueryForTable c t) = Except.ok 0) :
    WriteTable c db t =
      ("\n--\n-- Structure for table `" ++ t ++ "`\n--\n\n"
          ++ ("DROP TABLE IF EXISTS `" ++ t ++ "`;\n") ++ ddl ++ ";\n"
          ++ ("\n--\n-- Data for table `" ++ t ++ "`" ++ " -- "
              ++ toString (0 : Nat) ++ " rows\n--\n\n"),
       (if c.useTableLock then
          ["LOCK TABLES `" ++ t ++ "` READ", "FLUSH TABLES `" ++ t ++ "`"]
        else []),
       none) := by
  unfold WriteTable WriteCreateTable WriteTableHeader GetRowCountForTable
  simp [hf, hddl, hcnt]

/-- Witness for C8: a table with a DDL and zero rows dumps to the structure
section and the data header only. -/
theorem writeTable_zero_rows_witness :
    WriteTable exClient exDbZero "t" =
      ("\n--\n-- Structure for table `t`\n--\n\nDROP TABLE IF EXISTS `t`;\nCREATE TABLE `t` (x int);\n\n--\n-- Data for table `t` -- 0 rows\n--\n\n",
       [], none) := by
  have h := writeTable_zero_rows exClient exDbZero "t" "t" "CREATE TABLE `t` (x int)"
    rfl rfl rfl
  rw [h]
  rfl

theorem getTablesLoop_partial (e : Err) (rest : List (Except Err (String × String))) :
    ∀ (good : List (String × String)) (acc : List String),
      getTablesLoop (good.map Except.ok ++ Except.error e :: rest) acc
        = (acc ++ baseTableNames good, some e) := by
  intro good
  induction good with
  | nil => intro acc; simp [getTablesLoop, baseTableNames]
  | cons g gs ih =>
    intro acc
    obtain ⟨name, ttype⟩ := g
    simp only [List.map_cons, List.cons_append, getTablesLoop, List.append_eq]
    by_cases hb : ttype = "BASE TABLE"
    · rw [if_pos hb, ih]
      simp [baseTableNames, hb, List.append_assoc]
    · rw [if_neg hb, ih]
      simp [baseTableNames, hb]

/-- Claim C2 (amended): when decoding a row of the table listing fails
mid-iteration, GetTables returns the error paired with the BASE TABLE
names decoded before the failure — the partial list, in cursor order;
this list is empty only when no BASE TABLE row was decoded before the
failing row. -/
theorem getTables_partial (db : DB) (good : List (String × String)) (e : Err)
    (rest : List (Except Err (String × String)))
    (h : db.tablesCursor = Except.ok (good.map Except.ok ++ Except.error e :: rest)) :
    GetTables db = (baseTableNames good, some e) := by
  unfold GetTables
  rw [h]
  simpa using getTablesLoop_partial e rest good []

/-- Counterexample to claim C2 as stated: one table name is decoded before
the scan failure and GetTables pairs the error with the non-empty partial
list, not with an empty sequence. -/
theorem getTables_counterexample :
    GetTables exDbTablesPartial = (["t1"], some "boom")
    ∧ (GetTables exDbTablesPartial).1 ≠ [] := by
  refine ⟨rfl, by decide⟩

/-- Witness for the amended C2: one decoded BASE TABLE row followed by a
failing row yields that single name paired with the error. -/
theorem getTables_partial_witness :
    GetTables exDbTablesPartial = (baseTableNames [("t1", "BASE TABLE")], some "boom") :=
  getTables_partial exDbTablesPartial [("t1", "BASE TABLE")] "boom" [] rfl

/-- Claim C10: WriteCreateTable writes the header comment and the DROP
TABLE IF EXISTS statement before scanning the creation DDL, so when that
scan fails the error is returned while the sink has already received
exactly those lines: the structure output is not atomic on error. -/
theorem writeCreateTable_partial_on_error (db : DB) (t : String) (e : Err)
    (h : db.createTable t = Except.error e) :
    WriteCreateTable db t =
      ("\n--\n-- Structure for table `" ++ t ++ "`\n--\n\n"
        ++ ("DROP TABLE IF EXISTS `" ++ t ++ "`;\n"), some e) := by
  unfold WriteCreateTable
  rw [h]

/-- Witness for C10: a failing DDL scan leaves the header and DROP lines in
the sink next to the returned error. -/
theorem writeCreateTable_partial_on_error_witness :
    WriteCreateTable exDbData "t" =
      ("\n--\n-- Structure for table `t`\n--\n\nDROP TABLE IF EXISTS `t`;\n",
        some "no ddl") := by
  have h := writeCreateTable_partial_on_error exDbData "t" "no ddl" rfl
  rw [h]
  rfl

/-- Claim C5: the SELECT column list built by GetColumnsForSelect has one
entry per database column in the database order, and the entry at each
position is the SelectMap expression (looked up under the lower-cased
table and column names) aliased AS the backtick-quoted original column
name when present, else the backtick-quoted original column name. -/
theorem getColumnsForSelect_subst (c : Client) (db : DB) (t : String)
    (cols out : List String)
    (h : db.probeColumns t = Except.ok cols)
    (hout : GetColumnsForSelect c db t = Except.ok out) :
    out.length = cols.length
    ∧ ∀ (i : Nat) (hi : i < cols.length) (hi2 : i < out.length),
        out[i] = match c.selectMap (strToLower t) (strToLower cols[i]) with
          | some repl => repl ++ " AS `" ++ cols[i] ++ "`"
          | none => "`" ++ cols[i] ++ "`" := by
  have hout2 : out = applySelectMap c t cols := by
    unfold GetColumnsForSelect at hout
    rw [h] at hout
    simp [Except.map] at hout
    exact hout.symm
  subst hout2
  constructor
  · simp [applySelectMap]
  · intro i hi hi2
    simp [applySelectMap]

/-- Witness for C5: with SelectMap table.col2 = NOW() and columns col1,
col2, col3 the built list substitutes position 1 and quotes position 0. -/
theorem getColumnsForSelect_subst_witness :
    (["`col1`", "NOW() AS `col2`", "`col3`"] : List String)[1] = "NOW() AS `col2`"
    ∧ (["`col1`", "NOW() AS `col2`", "`col3`"] : List String)[0] = "`col1`" := by
  have h := getColumnsForSelect_subst exClientSelect exDbColumns "table"
    ["col1", "col2", "col3"] ["`col1`", "NOW() AS `col2`", "`col3`"] rfl rfl
  refine ⟨?_, ?_⟩
  · rw [h.2 1 (by decide) (by decide)]
    rfl
  · rw [h.2 0 (by decide) (by decide)]
    rfl

/-- Claim C6: the row-count query and the data SELECT query both end with
the text WHERE followed by the WhereMap expression verbatim exactly when
WhereMap has an entry for the lower-cased table name; with no entry both
queries are exactly the WHERE-less base form; and GetRowCountForTable
consults the database with precisely the built count query. -/
theorem queries_where_clause (c : Client) (db : DB) (t : String) (cols : List String)
    (hcols : db.probeColumns t = Except.ok cols) :
    (∀ w, c.whereMap (strToLower t) = some w →
        countQueryForTable c t
            = "SELECT COUNT(*) FROM `" ++ t ++ "`" ++ " WHERE " ++ w
        ∧ GetSelectQueryForTable c db t = Except.ok
            ("SELECT " ++ String.intercalate ", " (applySelectMap c t cols)
              ++ " FROM `" ++ t ++ "`" ++ " WHERE " ++ w))
    ∧ (c.whereMap (strToLower t) = none →
        countQueryForTable c t = "SELECT COUNT(*) FROM `" ++ t ++ "`"
        ∧ GetSelectQueryForTable c db t = Except.ok
            ("SELECT " ++ String.intercalate ", " (applySelectMap c t cols)
              ++ " FROM `" ++ t ++ "`"))
    ∧ GetRowCountForTable c db t = db.countScan (countQueryForTable c t) := by
  refine ⟨?_, ?_, rfl⟩
  · intro w hw
    constructor
    · unfold countQueryForTable
      rw [hw]
    · unfold GetSelectQueryForTable GetColumnsForSelect
      rw [hcols]
      simp only [Except.map]
      rw [hw]
  · intro hw
    constructor
    · unfold countQueryForTable
      rw [hw]
    · unfold GetSelectQueryForTable GetColumnsForSelect
      rw [hcols]
      simp only [Except.map]
      rw [hw]

/-- Witness for C6: with WhereMap table = c1 > 0 both queries end with the
clause, and with no entry the count query has no WHERE clause. -/
theorem queries_where_clause_witness :
    countQueryForTable exClientSelect "table"
        = "SELECT COUNT(*) FROM `table` WHERE c1 > 0"
    ∧ GetSelectQueryForTable exClientSelect exDbColumns "table" =
        Except.ok "SELECT `col1`, NOW() AS `col2`, `col3` FROM `table` WHERE c1 > 0"
    ∧ countQueryForTable exClient "t" = "SELECT COUNT(*) FROM `t`" := by
  have h := (queries_where_clause exClientSelect exDbColumns "table"
      ["col1", "col2", "col3"] rfl).1 "c1 > 0" rfl
  have h2 := ((queries_where_clause exClient exDbData "t" ["a"] rfl).2.1 rfl).1
  refine ⟨?_, ?_, ?_⟩
  · rw [h.1]
    rfl
  · rw [h.2]
    rfl
  · rw [h2]
    rfl

/-- Claim C9: a null cell renders as the unquoted literal NULL; a non-null
cell renders as its bytes passed through the escape map and wrapped in
single quotes; the escape map rewrites every character whose code is
special (single-quote, backslash, NUL, newline, carriage return, Ctrl-Z)
to a backslash followed by its marker and leaves every other character
unchanged; and a row renders as its cells joined comma-separated inside
parentheses. -/
theorem renderCell_escaping :
    renderCell none = "NULL"
    ∧ (∀ s, renderCell (some s) = squote ++ escape s ++ squote)
    ∧ (∀ s, (escape s).data = s.data.flatMap escapeChar)
    ∧ (∀ ch : Char, ch.toNat ∈ specialCodes →
        escapeChar ch = [Char.ofNat 92, escapedMarker ch])
    ∧ (∀ ch : Char, ch.toNat ∉ specialCodes → escapeChar ch = [ch])
    ∧ (∀ cells, renderRow cells
        = "( " ++ String.intercalate ", " (cells.map renderCell) ++ " )") := by
  refine ⟨rfl, fun s => rfl, fun s => rfl, ?_, ?_, fun cells => rfl⟩
  · intro ch hch
    simp only [specialCodes, List.mem_cons, List.not_mem_nil, or_false] at hch
    rcases hch with h | h | h | h | h | h <;>
      (have hc := (Char.ofNat_toNat ch).symm
       rw [h] at hc
       subst hc
       decide)
  · intro ch hch
    simp only [specialCodes, List.mem_cons, List.not_mem_nil, or_false, not_or] at hch
    obtain ⟨h1, h2, h3, h4, h5, h6⟩ := hch
    simp [escapeChar, h1, h2, h3, h4, h5, h6]

/-- Witness for C9: the single-quote character is rewritten to its escaped
form and the letter x is left unchanged. -/
theorem renderCell_escaping_witness :
    escapeChar (Char.ofNat 39) = [Char.ofNat 92, escapedMarker (Char.ofNat 39)]
    ∧ escapeChar (Char.ofNat 120) = [Char.ofNat 120] :=
  ⟨renderCell_escaping.2.2.2.1 (Char.ofNat 39) (by decide),
   renderCell_escaping.2.2.2.2.1 (Char.ofNat 120) (by decide)⟩

theorem unescape_escapeChar (c : Char) (l : List Char) :
    unescapeChars (escapeChar c ++ l) = c :: unescapeChars l := by
  by_cases h39 : c.toNat = 39
  · have hc : c = Char.ofNat 39 := by rw [← h39, Char.ofNat_toNat]
    subst hc
    simp [escapeChar, unescapeChars]
  · by_cases h92 : c.toNat = 92
    · have hc : c = Char.ofNat 92 := by rw [← h92, Char.ofNat_toNat]
      subst hc
      simp [escapeChar, unescapeChars]
    · by_cases h0 : c.toNat = 0
      · have hc : c = Char.ofNat 0 := by rw [← h0, Char.ofNat_toNat]
        subst hc
        simp [escapeChar, unescapeChars]
      · by_cases h10 : c.toNat = 10
        · have hc : c = Char.ofNat 10 := by rw [← h10, Char.ofNat_toNat]
          subst hc
          simp [escapeChar, unescapeChars]
        · by_cases h13 : c.toNat = 13
          · have hc : c = Char.ofNat 13 := by rw [← h13, Char.ofNat_toNat]
            subst hc
            simp [escapeChar, unescapeChars]
          · by_cases h26 : c.toNat = 26
            · have hc : c = Char.ofNat 26 := by rw [← h26, Char.ofNat_toNat]
              subst hc
              simp [escapeChar, unescapeChars]
            · cases l with
              | nil =>
                simp [escapeChar, h39, h92, h0, h10, h13, h26, unescapeChars]
              | cons d rest =>
                simp [escapeChar, h39, h92, h0, h10, h13, h26, unescapeChars]

/-- The modelled escaping is lossless: decoding the escaped character
stream under the SQL literal rules restores the original bytes. -/
theorem escape_roundtrip (s : String) :
    unescapeChars (escape s).data = s.data := by
  show unescapeChars (s.data.flatMap escapeChar) = s.data
  induction s.data with
  | nil => rfl
  | cons c cs ih =>
    rw [List.flatMap_cons, unescape_escapeChar, ih]

end MySQLDump
